import Mathlib

set_option maxRecDepth 8192

/-
  Verification development for the mermaid2gif pipeline.

  Shallow embedding of:
  - src/engine/mermaid_validator.py  (MermaidValidator.validate and the
    mermaid_validator graph node)
  - src/agents/fixer.py              (mermaid_fix_agent, _format_validation_errors)
  - src/agents/intent.py             (intent_agent, input_router)
  - src/core/graph.py                (conditional edges, terminal nodes, wiring)
  - src/core/state.py                (GraphState, create_initial_state)
  - src/core/config.py               (Config fields and attribute access)
  - src/engine/mermaid_renderer.py, animation_applicator.py,
    capture_controller.py, ffmpeg_processor.py (the four pipeline stage nodes)

  Python strings are embedded as List Char; Python str.strip / split("\n") /
  lower / startswith / substring containment / count / replace are embedded
  one to one below.  External collaborators (LLM calls, browser, ffmpeg) are
  modelled as an event stream consumed by the nodes that call them.
-/

namespace M2G

/-- Python default whitespace for str.strip (ASCII range). -/
def isPySpace (c : Char) : Bool :=
  c == ' ' || c == '\t' || c == '\n' || c == '\r' || c == '\x0b' || c == '\x0c'

/-- Python str.strip(): drop leading and trailing whitespace. -/
def pyStrip (l : List Char) : List Char :=
  ((l.dropWhile isPySpace).reverse.dropWhile isPySpace).reverse

/-- Python str.split("\n"): split at every newline, keeping empty pieces. -/
def splitOnNl : List Char → List (List Char)
  | [] => [[]]
  | c :: rest =>
    if c = '\n' then [] :: splitOnNl rest
    else
      match splitOnNl rest with
      | [] => [[c]]
      | h :: t => (c :: h) :: t

/-- Python str.lower() (ASCII). -/
def lowerList (l : List Char) : List Char := l.map Char.toLower

/-- Python substring containment: pat in l. -/
def containsSub (pat : List Char) : List Char → Bool
  | [] => pat.isEmpty
  | c :: rest => pat.isPrefixOf (c :: rest) || containsSub pat rest

/-- Python str.count(sub), non-overlapping occurrences scanning left to
right.  Structural recursion on a fuel that starts at the list length
(each step consumes at least one character, so the fuel never runs out). -/
def countSubAux (pat : List Char) : Nat → List Char → Nat
  | 0, _ => 0
  | _, [] => 0
  | fuel + 1, c :: rest =>
    if pat ≠ [] ∧ pat.isPrefixOf (c :: rest) then
      1 + countSubAux pat fuel (rest.drop (pat.length - 1))
    else countSubAux pat fuel rest

def countSub (pat l : List Char) : Nat := countSubAux pat l.length l

/-- Python str.replace(pat, ""): remove all non-overlapping occurrences,
scanning left to right, with the same fuel scheme as countSubAux. -/
def removeAllAux (pat : List Char) : Nat → List Char → List Char
  | 0, l => l
  | _, [] => []
  | fuel + 1, c :: rest =>
    if pat ≠ [] ∧ pat.isPrefixOf (c :: rest) then
      removeAllAux pat fuel (rest.drop (pat.length - 1))
    else c :: removeAllAux pat fuel rest

def removeAll (pat l : List Char) : List Char := removeAllAux pat l.length l

/-- A validation error descriptor.  The Python validator builds plain dicts
with exactly the keys "message" and "line"; the optional "type" key (read by
_format_validation_errors with default "Unknown") is modelled as an Option
that the validator never sets. -/
structure VError where
  etype : Option String
  message : String
  line : Nat
deriving DecidableEq, Repr

/-- The valid_types list of MermaidValidator.validate, original casing. -/
def validTypes : List String :=
  ["graph", "flowchart", "sequencediagram", "classDiagram",
   "stateDiagram", "erDiagram", "journey", "gantt", "pie",
   "gitGraph", "mindmap", "timeline", "quadrantChart"]

def emptyMsg : String := "Empty Mermaid code"

def typeMsg : String :=
  "Invalid or missing diagram type. Must start with one of: " ++
    String.intercalate ", " validTypes

def sepMsg : String :=
  "Multiple statements on a single line without semicolons. Mermaid requires newlines or semicolons between statements."

def bracketMsg : String := "Mismatched brackets/parentheses"

/-- The ER cardinality patterns stripped before bracket counting, in the
order the source removes them. -/
def erPatterns : List (List Char) :=
  [("||--o\x7b").data, ("\x7do--||").data, ("||--||").data,
   ("o\x7b").data, ("\x7do").data, ("|\x7b").data, ("\x7d|").data]

/-- Sequentially remove every ER cardinality pattern from a line. -/
def erStrip (l : List Char) : List Char :=
  erPatterns.foldl (fun acc p => removeAll p acc) l

def openCount (l : List Char) : Nat :=
  l.count '[' + l.count '(' + l.count '\x7b'

def closeCount (l : List Char) : Nat :=
  l.count ']' + l.count ')' + l.count '\x7d'

/-- One line of the per-line bracket check: after the ER exemption (applied
only when the first line mentions erdiagram) the open and close counts
disagree. -/
def lineBracketBad (isEr : Bool) (stripped : List Char) : Bool :=
  let lw := if isEr then erStrip stripped else stripped
  openCount lw != closeCount lw

/-- Comment test: stripped.startswith("%%"). -/
def isComment (stripped : List Char) : Bool :=
  ['%', '%'].isPrefixOf stripped

/-- The bracket-checking loop of validate: enumerate(lines, i), skipping
blank and comment lines, emitting one error per bad line. -/
def bracketErrors (isEr : Bool) : Nat → List (List Char) → List VError
  | _, [] => []
  | i, l :: rest =>
    let st := pyStrip l
    if st.isEmpty || isComment st then bracketErrors isEr (i + 1) rest
    else if lineBracketBad isEr st then
      ⟨none, bracketMsg, i⟩ :: bracketErrors isEr (i + 1) rest
    else bracketErrors isEr (i + 1) rest

def arrowPat : List Char := ("-->").data
def dashPat : List Char := ("---").data
def semiPat : List Char := (";").data
def erKey : List Char := ("erdiagram").data

/-- The lines of the stripped source, as validate computes them. -/
def strippedLines (code : String) : List (List Char) :=
  splitOnNl (pyStrip code.data)

/-- lines[0].strip().lower() as validate computes it. -/
def firstLineOf (code : String) : List Char :=
  lowerList (pyStrip ((strippedLines code).headD []))

/-- The diagram-type check of validate: any(first_line.startswith(t.lower())
for t in valid_types), yielding one error at line 1 when it fails. -/
def typeErrorsOf (code : String) : List VError :=
  if validTypes.any (fun t => (lowerList t.data).isPrefixOf (firstLineOf code)) then []
  else [⟨none, typeMsg, 1⟩]

/-- The single-line check of validate: len(lines) == 1 and a connection
operator present and no semicolon. -/
def sepErrorsOf (code : String) : List VError :=
  if (strippedLines code).length = 1 then
    if containsSub arrowPat (firstLineOf code) || containsSub dashPat (firstLineOf code) then
      if containsSub semiPat (firstLineOf code) then [] else [⟨none, sepMsg, 1⟩]
    else []
  else []

/-- The full errors list validate accumulates, in append order: type check,
single-line check, then the per-line bracket loop. -/
def allErrorsOf (code : String) : List VError :=
  typeErrorsOf code ++ sepErrorsOf code ++
    bracketErrors (containsSub erKey (firstLineOf code)) 1 (strippedLines code)

/-- MermaidValidator.validate, embedded from
src/engine/mermaid_validator.py lines 38-132.  Returns (is_valid, errors). -/
def validate (code : String) : Bool × Option (List VError) :=
  if (pyStrip code.data).isEmpty then (false, some [⟨none, emptyMsg, 0⟩])
  else if (allErrorsOf code).isEmpty then (true, none)
  else (false, some (allErrorsOf code))

/-- _format_validation_errors of src/agents/fixer.py: one numbered line per
error, "[kind] Line n: message", kind defaulting to "Unknown". -/
def formatOneErr (i : Nat) (e : VError) : String :=
  toString i ++ ". [" ++ e.etype.getD "Unknown" ++ "] Line " ++
    toString e.line ++ ": " ++ e.message

def formatValidationErrors (errs : List VError) : String :=
  if errs.isEmpty then "No specific errors provided"
  else String.intercalate "\n" (errs.enum.map (fun p => formatOneErr (p.1 + 1) p.2))

/-- Animation manifest record.  The Python dict holds a float duration
(default 5.0 s) and a preset name; the duration is represented in tenths of
a second since no claim computes with it. -/
structure AnimManifest where
  durationTenths : Nat
  preset : String
deriving DecidableEq, Repr

/-- The default manifest built by input_router, intent_agent and
animation_planner: duration 5.0, preset "default". -/
def defaultManifest : AnimManifest := ⟨50, "default"⟩

/-- The Config class of src/core/config.py, with exactly the fields its
class body declares.  Paths are strings; the float
default_animation_duration (5.0) is held in tenths of a second. -/
structure Config where
  groq_api_key : Option String
  openrouter_api_key : Option String
  litellm_model : String
  chromium_executable_path : Option String
  browser_timeout_ms : Nat
  viewport_width : Nat
  viewport_height : Nat
  ffmpeg_path : Option String
  default_animation_duration_tenths : Nat
  default_fps : Nat
  log_level : String
  structured_logging : Bool
deriving DecidableEq, Repr

/-- A Config built from the field defaults of config.py (API keys supplied,
since the model validator demands at least one). -/
def mkConfig (groq openrouter : Option String) : Config :=
  { groq_api_key := groq
    openrouter_api_key := openrouter
    litellm_model := "groq/llama-3.3-70b-versatile"
    chromium_executable_path := none
    browser_timeout_ms := 30000
    viewport_width := 1920
    viewport_height := 1080
    ffmpeg_path := none
    default_animation_duration_tenths := 50
    default_fps := 30
    log_level := "INFO"
    structured_logging := true }

/-- The attribute names the Config class declares, in source order. -/
def configFieldNames : List String :=
  ["groq_api_key", "openrouter_api_key", "litellm_model",
   "chromium_executable_path", "browser_timeout_ms", "viewport_width",
   "viewport_height", "ffmpeg_path", "default_animation_duration",
   "default_fps", "log_level", "structured_logging"]

/-- Pydantic attribute access for integer-valued attributes: a BaseSettings
model with extra="ignore" resolves declared fields and raises
AttributeError for any other name. -/
def Config.getAttrNat (c : Config) (attr : String) : Except String Nat :=
  if attr = "browser_timeout_ms" then .ok c.browser_timeout_ms
  else if attr = "viewport_width" then .ok c.viewport_width
  else if attr = "viewport_height" then .ok c.viewport_height
  else if attr = "default_fps" then .ok c.default_fps
  else .error ("AttributeError: \x27Config\x27 object has no attribute \x27" ++ attr ++ "\x27")

/-- The read config.max_retry_attempts performed by should_retry_validation
(src/core/graph.py line 87) and mermaid_fix_agent (src/agents/fixer.py
line 95). -/
def readRetryCeiling (c : Config) : Except String Nat :=
  c.getAttrNat "max_retry_attempts"

/-- The GraphState TypedDict of src/core/state.py. -/
structure GraphState where
  raw_input : String
  raw_input_type : String
  mermaid_code : Option String
  animation_manifest : Option AnimManifest
  validation_errors : Option (List VError)
  diagram_rendered : Bool
  animation_applied : Bool
  video_path : Option String
  gif_path : Option String
  errors : List String
  artifacts : List (String × String)
  retry_count : Nat
deriving DecidableEq, Repr

/-- create_initial_state of src/core/state.py. -/
def create_initial_state (raw_input : String) (input_type : String) : GraphState :=
  { raw_input := raw_input
    raw_input_type := input_type
    mermaid_code := none
    animation_manifest := none
    validation_errors := none
    diagram_rendered := false
    animation_applied := false
    video_path := none
    gif_path := none
    errors := []
    artifacts := []
    retry_count := 0 }

/-- state["errors"].append(m). -/
def GraphState.addErr (s : GraphState) (m : String) : GraphState :=
  { s with errors := s.errors ++ [m] }

/-- Python truthiness of an optional string (None and "" are falsy). -/
def truthyStr : Option String → Bool
  | some s => !s.isEmpty
  | none => false

/-- Python truthiness of the validation_errors field (None and [] falsy). -/
def truthyErrs : Option (List VError) → Bool
  | some (_ :: _) => true
  | _ => false

/-- The nodes of the LangGraph workflow built in create_graph
(src/core/graph.py). -/
inductive Node
  | inputRouter
  | intentAgent
  | validatorNode
  | fixMermaid
  | animationPlanner
  | rendererNode
  | animApplicator
  | captureNode
  | transcodeNode
  | endSuccess
  | endFail
deriving DecidableEq, Repr

/-- Outcome of one LiteLLM completion call, as the agents interpret it:
timeout, transport failure, unparseable JSON, missing "mermaid" key, or a
well-formed payload. -/
inductive LLMRes
  | timeout (msg : String)
  | reqFailed (msg : String)
  | badJson (msg : String)
  | missingKey
  | ok (mermaid : String) (animation : Option AnimManifest)
deriving DecidableEq, Repr

/-- Outcome of one external render / animate / capture / transcode
collaborator call: an exception with a message, or a produced payload. -/
inductive ExtRes
  | fail (msg : String)
  | ok (payload : String)
deriving DecidableEq, Repr

/-- One external event consumed by a node that calls a collaborator. -/
inductive Ev
  | llm (r : LLMRes)
  | ext (r : ExtRes)
deriving DecidableEq, Repr

/-- A configuration of the running graph: current node, shared state, and
the stream of pending external outcomes. -/
structure Cfg where
  node : Node
  st : GraphState
  evs : List Ev
deriving DecidableEq, Repr

/-- Result of executing one node (with its outgoing conditional edge):
continue at the next node, abort the run with an uncaught exception, finish
at a terminal handler, or get stuck (mismatched or exhausted event stream). -/
inductive StepRes
  | next (c : Cfg)
  | aborted (s : GraphState)
  | terminal (s : GraphState)
  | stuck
deriving DecidableEq, Repr

/-- input_router (src/agents/intent.py lines 169-201) followed by the
should_generate_mermaid conditional edge (src/core/graph.py lines 93-108). -/
def routerStep (s : GraphState) (evs : List Ev) : StepRes :=
  let s' :=
    if s.raw_input_type = "mermaid" then
      { s with mermaid_code := some s.raw_input,
               animation_manifest := some defaultManifest }
    else s
  if s'.raw_input_type = "mermaid" then .next ⟨.validatorNode, s', evs⟩
  else .next ⟨.intentAgent, s', evs⟩

/-- intent_agent (src/agents/intent.py lines 82-166) followed by the plain
edge to mermaid_validator.  Any raised exception appends to errors and
re-raises, aborting the run. -/
def intentStep (s : GraphState) (evs : List Ev) : StepRes :=
  if s.raw_input.isEmpty then
    .aborted (s.addErr ("Intent agent failed: No raw_input in state"))
  else
    match evs with
    | .llm r :: rest =>
      match r with
      | .timeout m =>
        .aborted (s.addErr ("Intent agent failed: LLM request timed out: " ++ m))
      | .reqFailed m =>
        .aborted (s.addErr ("Intent agent failed: LLM request failed: " ++ m))
      | .badJson m =>
        .aborted (s.addErr ("Intent agent failed: Failed to parse LLM response as JSON: " ++ m))
      | .missingKey =>
        .aborted (s.addErr ("Intent agent failed: LLM response missing \x27mermaid\x27 key"))
      | .ok code mani =>
        .next ⟨.validatorNode,
               { s with mermaid_code := some code,
                        animation_manifest := some (mani.getD defaultManifest) },
               rest⟩
    | _ => .stuck

def noCodeAppendMsg : String := "Validation failed: No Mermaid code in state"

def noCodeDescriptorMsg : String := "Validation error: No Mermaid code in state"

/-- The abort path of the mermaid_validator node when no (or empty)
mermaid_code is in state: append to errors, store the descriptor, re-raise
ValidationError. -/
def validatorFail (s : GraphState) : StepRes :=
  .aborted { s.addErr noCodeAppendMsg with
             validation_errors := some [⟨none, noCodeDescriptorMsg, 0⟩] }

/-- mermaid_validator node (src/engine/mermaid_validator.py lines 135-183)
followed by the should_fix_mermaid conditional edge (src/core/graph.py
lines 53-68). -/
def validatorStep (s : GraphState) (evs : List Ev) : StepRes :=
  match s.mermaid_code with
  | none => validatorFail s
  | some code =>
    if code.isEmpty then validatorFail s
    else
      match validate code with
      | (true, _) => .next ⟨.animationPlanner, { s with validation_errors := none }, evs⟩
      | (false, errs) =>
        if truthyErrs errs then
          .next ⟨.fixMermaid, { s with validation_errors := errs }, evs⟩
        else
          .next ⟨.animationPlanner, { s with validation_errors := errs }, evs⟩

/-- The message RetryExhaustedError handling appends in mermaid_fix_agent:
f-string "Max retries ({max_retries}) exceeded in fix agent". -/
def maxRetriesMsg (m : Nat) : String :=
  "Max retries (" ++ toString m ++ ") exceeded in fix agent"

/-- mermaid_fix_agent (src/agents/fixer.py lines 74-193) followed by the
should_retry_validation conditional edge (src/core/graph.py lines 71-90).
mr stands for the value the config read config.max_retry_attempts would
yield (the read itself is modelled separately by readRetryCeiling). -/
def fixStep (mr : Nat) (s : GraphState) (evs : List Ev) : StepRes :=
  if mr ≤ s.retry_count then .aborted (s.addErr (maxRetriesMsg mr))
  else if !truthyStr s.mermaid_code then
    .aborted (s.addErr ("Fix agent failed: No mermaid_code in state"))
  else if !truthyErrs s.validation_errors then
    .aborted (s.addErr ("Fix agent failed: No validation_errors in state"))
  else
    match evs with
    | .llm r :: rest =>
      match r with
      | .timeout m =>
        .aborted (s.addErr ("Fix agent failed: LLM request timed out: " ++ m))
      | .reqFailed m =>
        .aborted (s.addErr ("Fix agent failed: LLM request failed: " ++ m))
      | .badJson m =>
        .aborted (s.addErr ("Fix agent failed: Failed to parse LLM response as JSON: " ++ m))
      | .missingKey =>
        .aborted (s.addErr ("Fix agent failed: LLM response missing \x27mermaid\x27 key"))
      | .ok code _ =>
        if mr < s.retry_count + 1 then
          .next ⟨.endFail,
                 { s with mermaid_code := some code, retry_count := s.retry_count + 1,
                          validation_errors := none }, rest⟩
        else
          .next ⟨.validatorNode,
                 { s with mermaid_code := some code, retry_count := s.retry_count + 1,
                          validation_errors := none }, rest⟩
    | _ => .stuck

/-- animation_planner (src/core/graph.py lines 29-46). -/
def plannerStep (s : GraphState) (evs : List Ev) : StepRes :=
  let s' :=
    if s.animation_manifest.isSome then s
    else { s with animation_manifest := some defaultManifest }
  .next ⟨.rendererNode, s', evs⟩

/-- render_mermaid_node (src/engine/mermaid_renderer.py lines 19-69).  On
failure the node only logs and re-raises: nothing is appended to errors. -/
def rendererStep (s : GraphState) (evs : List Ev) : StepRes :=
  if !truthyStr s.mermaid_code then .aborted s
  else
    match evs with
    | .ext r :: rest =>
      match r with
      | .fail _ => .aborted s
      | .ok html =>
        .next ⟨.animApplicator,
               { s with artifacts := s.artifacts ++ [("render_html", html)],
                        diagram_rendered := true },
               rest⟩
    | _ => .stuck

def animPreMsg : String :=
  "Animation application failed: Diagram must be rendered before applying animation"

/-- _apply_animation_async (src/engine/animation_applicator.py lines
221-262).  The precondition failures are raised before the
AnimationApplicator collaborator is constructed, so no event is consumed
there; the except block appends the message, forces animation_applied to
False and re-raises. -/
def animStep (s : GraphState) (evs : List Ev) : StepRes :=
  if !s.diagram_rendered then
    .aborted { s.addErr animPreMsg with animation_applied := false }
  else if !truthyStr s.mermaid_code then
    .aborted { s.addErr ("Animation application failed: No Mermaid code in state") with
               animation_applied := false }
  else
    match evs with
    | .ext r :: rest =>
      match r with
      | .fail m =>
        .aborted { s.addErr ("Animation application failed: " ++ m) with
                   animation_applied := false }
      | .ok _ => .next ⟨.captureNode, { s with animation_applied := true }, rest⟩
    | _ => .stuck

/-- _capture_video_async (src/engine/capture_controller.py lines 255-310).
Artifact payloads (duration, file size) come from the environment and are
stored as opaque placeholders. -/
def captureStep (s : GraphState) (evs : List Ev) : StepRes :=
  if !s.diagram_rendered then
    .aborted (s.addErr ("Video capture failed: Diagram must be rendered before capture"))
  else if !s.animation_applied then
    .aborted (s.addErr ("Video capture failed: Animation must be applied before capture"))
  else if !truthyStr s.mermaid_code then
    .aborted (s.addErr ("Video capture failed: No Mermaid code in state"))
  else
    match evs with
    | .ext r :: rest =>
      match r with
      | .fail m => .aborted (s.addErr ("Video capture failed: " ++ m))
      | .ok vpath =>
        .next ⟨.transcodeNode,
               { s with video_path := some vpath,
                        artifacts := s.artifacts ++
                          [("video_duration", ""), ("video_size_bytes", "")] },
               rest⟩
    | _ => .stuck

/-- The GIF output path Path(video).parent / (stem + ".gif"); the
filesystem path arithmetic is abstracted, only producing a non-empty path
derived from the video path. -/
def gifOutputPath (video : String) : String := video ++ ".gif"

/-- transcode_to_gif_node (src/engine/ffmpeg_processor.py lines 197-246). -/
def transcodeStep (s : GraphState) (evs : List Ev) : StepRes :=
  if !truthyStr s.video_path then
    .aborted (s.addErr ("GIF generation failed: No video_path in state"))
  else
    match evs with
    | .ext r :: rest =>
      match r with
      | .fail m => .aborted (s.addErr ("GIF generation failed: " ++ m))
      | .ok _ =>
        .next ⟨.endSuccess,
               { s with gif_path := some (gifOutputPath (s.video_path.getD "")),
                        artifacts := s.artifacts ++
                          [("video_info", ""), ("gif_size_bytes", "")] },
               rest⟩
    | _ => .stuck

/-- One step of the compiled workflow: execute the current node and follow
its outgoing edge.  end_success and end_fail only log and return the state
to the caller. -/
def stepF (mr : Nat) (c : Cfg) : StepRes :=
  match c.node with
  | .inputRouter => routerStep c.st c.evs
  | .intentAgent => intentStep c.st c.evs
  | .validatorNode => validatorStep c.st c.evs
  | .fixMermaid => fixStep mr c.st c.evs
  | .animationPlanner => plannerStep c.st c.evs
  | .rendererNode => rendererStep c.st c.evs
  | .animApplicator => animStep c.st c.evs
  | .captureNode => captureStep c.st c.evs
  | .transcodeNode => transcodeStep c.st c.evs
  | .endSuccess => .terminal c.st
  | .endFail => .terminal c.st

/-- Result of a complete run: a record delivered by a terminal handler, a
state abandoned by an uncaught exception, or out of fuel / events. -/
inductive RunRes
  | terminal (s : GraphState)
  | aborted (s : GraphState)
  | out
deriving DecidableEq, Repr

/-- Fuel-indexed execution of the workflow. -/
def run (mr : Nat) : Nat → Cfg → RunRes
  | 0, _ => .out
  | fuel + 1, c =>
    match stepF mr c with
    | .next c' => run mr fuel c'
    | .aborted s => .aborted s
    | .terminal s => .terminal s
    | .stuck => .out

/-- The single-step relation of the workflow. -/
def StepsTo (mr : Nat) (a b : Cfg) : Prop := stepF mr a = .next b

/-- Reachability along workflow steps. -/
def Reaches (mr : Nat) : Cfg → Cfg → Prop :=
  Relation.ReflTransGen (StepsTo mr)

/-- The configuration run_graph starts from: entry point input_router on
the record built by create_initial_state. -/
def initCfg (inp ty : String) (evs : List Ev) : Cfg :=
  ⟨.inputRouter, create_initial_state inp ty, evs⟩

/-- Projection of an aborted run result. -/
def abortedState : RunRes → Option GraphState
  | .aborted s => some s
  | _ => none

/-- Whether a step result continues to a next node. -/
def StepRes.isNextB : StepRes → Bool
  | .next _ => true
  | _ => false

/-- The continuation configuration of a step result (default for the
non-continuing cases). -/
def StepRes.nextCfgD : StepRes → Cfg → Cfg
  | .next c, _ => c
  | _, d => d

/-- The successor configuration of c (c itself when the step does not
continue). -/
def nextCfg (mr : Nat) (c : Cfg) : Cfg := (stepF mr c).nextCfgD c

/-- Run invariant: no errors accumulated while stepping, the attempt
counter bounded by the ceiling, the failure terminal never entered, and the
success terminal entered only with an output path present. -/
def Inv (mr : Nat) (c : Cfg) : Prop :=
  c.st.errors = [] ∧ c.st.retry_count ≤ mr ∧ c.node ≠ Node.endFail ∧
    (c.node = Node.endSuccess → c.st.gif_path ≠ none)

/-- Claim-side reading for the bracket check: the 1-based indices of the
lines of the source string as given (not stripped) that are non-blank,
non-comment and bracket-unbalanced after the ER exemption. -/
def rawUnbalancedLines (code : String) : List Nat :=
  let lines := splitOnNl code.data
  let firstLine := lowerList (pyStrip (lines.headD []))
  let isEr := containsSub erKey firstLine
  lines.enum.filterMap (fun p =>
    let st := pyStrip p.2
    if st.isEmpty || isComment st then none
    else if lineBracketBad isEr st then some (p.1 + 1) else none)

/-- Claim-side reading for the separator rule: the number of connection
operator occurrences in the (stripped, lowered) source. -/
def connectionOpCount (code : String) : Nat :=
  countSub arrowPat (lowerList (pyStrip code.data)) +
    countSub dashPat (lowerList (pyStrip code.data))

/-- A valid one-line diagram source. -/
def demoSrc : String := "graph TD"

/-- External outcomes for one fully successful render / animate / capture /
transcode pipeline. -/
def demoEvs : List Ev :=
  [Ev.ext (.ok "html"), Ev.ext (.ok "anim"),
   Ev.ext (.ok "video.webm"), Ev.ext (.ok "gif")]

def demoCfg : Cfg := initCfg demoSrc "mermaid" demoEvs

/-- The configuration after the seven steps of the successful demo run
(router, validator, planner, render, animate, capture, transcode), sitting
at end_success. -/
def demoEnd : Cfg :=
  nextCfg 2 (nextCfg 2 (nextCfg 2 (nextCfg 2 (nextCfg 2 (nextCfg 2 (nextCfg 2 demoCfg))))))

/-- A diagram source that is never valid (no diagram-type declaration). -/
def badSrc : String := "zzz"

/-- Fix-agent outcomes that always return a well-formed payload whose code
is still invalid. -/
def badFixEvs : List Ev := [Ev.llm (.ok badSrc none), Ev.llm (.ok badSrc none)]

def c1Cfg : Cfg := initCfg badSrc "mermaid" badFixEvs

/-- The record left behind when the validate-repair loop with ceiling 2
exhausts its retries on sources src, cA, cB that never validate. -/
def retryDemoFinal (src _cA cB : String) : GraphState :=
  { raw_input := src
    raw_input_type := "mermaid"
    mermaid_code := some cB
    animation_manifest := some defaultManifest
    validation_errors := (validate cB).2
    diagram_rendered := false
    animation_applied := false
    video_path := none
    gif_path := none
    errors := [maxRetriesMsg 2]
    artifacts := []
    retry_count := 2 }

/-- Example inputs for the validator claims. -/
def ex5 : String := "\ngraph TD\nA[x"

/-- The offending line of ex5 (its third source line, second stripped line). -/
def ex5Line : String := "A[x"

def ex6 : String := "graph td a-->b"

def ex7 : String := "A"

/-- A concrete record sitting at the repair stage with one validation
error pending. -/
def fixDemoState : GraphState :=
  { create_initial_state "graph TD\nA[" "mermaid" with
      mermaid_code := some "graph TD\nA[",
      validation_errors := some [⟨none, bracketMsg, 2⟩] }

/- ============================ lemmas ============================ -/

theorem run_next (mr f : Nat) (c c2 : Cfg) (h : stepF mr c = .next c2) :
    run mr (f + 1) c = run mr f c2 := by
  simp [run, h]

theorem run_abortedE (mr f : Nat) (c : Cfg) (s : GraphState)
    (h : stepF mr c = .aborted s) : run mr (f + 1) c = .aborted s := by
  simp [run, h]

theorem reaches_next (mr : Nat) (c : Cfg) (h : (stepF mr c).isNextB = true) :
    Reaches mr c (nextCfg mr c) := by
  cases hs : stepF mr c with
  | next c2 =>
    refine Relation.ReflTransGen.single ?_
    show stepF mr c = .next (nextCfg mr c)
    simp [nextCfg, hs, StepRes.nextCfgD]
  | aborted s => simp [StepRes.isNextB, hs] at h
  | terminal s => simp [StepRes.isNextB, hs] at h
  | stuck => simp [StepRes.isNextB, hs] at h

theorem validate_false_some (code : String) (h : (validate code).1 = false) :
    ∃ e es, validate code = (false, some (e :: es)) := by
  unfold validate at h ⊢
  split at h
  · next hemp => rw [if_pos hemp]; exact ⟨⟨none, emptyMsg, 0⟩, [], rfl⟩
  · next hemp =>
    rw [if_neg hemp]
    split at h
    · simp at h
    · next hne =>
      rw [if_neg hne]
      cases herr : allErrorsOf code with
      | nil => rw [herr] at hne; simp at hne
      | cons e es => exact ⟨e, es, rfl⟩

theorem validatorStep_invalid (s : GraphState) (evs : List Ev) (code : String)
    (e : VError) (es : List VError)
    (hm : s.mermaid_code = some code) (hne : code.isEmpty = false)
    (hv : validate code = (false, some (e :: es))) :
    validatorStep s evs =
      .next ⟨.fixMermaid, { s with validation_errors := some (e :: es) }, evs⟩ := by
  unfold validatorStep
  rw [hm]
  simp [hne, hv, truthyErrs]

theorem fixStep_exhaust (mr : Nat) (s : GraphState) (evs : List Ev)
    (hr : mr ≤ s.retry_count) :
    fixStep mr s evs = .aborted (s.addErr (maxRetriesMsg mr)) := by
  unfold fixStep
  rw [if_pos hr]

theorem fixStep_success (mr : Nat) (s : GraphState) (code : String)
    (mani : Option AnimManifest) (rest : List Ev)
    (hr : s.retry_count < mr) (hm : truthyStr s.mermaid_code = true)
    (hv : truthyErrs s.validation_errors = true) :
    fixStep mr s (Ev.llm (.ok code mani) :: rest) =
      .next ⟨.validatorNode,
             { s with mermaid_code := some code, retry_count := s.retry_count + 1,
                      validation_errors := none }, rest⟩ := by
  unfold fixStep
  rw [if_neg (by omega), hm, hv]
  simp only [Bool.not_true, Bool.false_eq_true, if_false, ite_false]
  rw [if_neg (by omega)]

theorem routerStep_next (s : GraphState) (evs : List Ev) (b : Cfg)
    (h : routerStep s evs = .next b) :
    b.st.errors = s.errors ∧ b.st.retry_count = s.retry_count ∧
      b.node ≠ Node.endFail ∧ b.node ≠ Node.endSuccess := by
  by_cases hty : s.raw_input_type = "mermaid"
  · simp only [routerStep, hty, if_pos] at h
    injection h with h2
    subst h2
    simp
  · simp only [routerStep, hty, if_neg, ite_false] at h
    injection h with h2
    subst h2
    simp

theorem intentStep_next (s : GraphState) (evs : List Ev) (b : Cfg)
    (h : intentStep s evs = .next b) :
    b.st.errors = s.errors ∧ b.st.retry_count = s.retry_count ∧
      b.node ≠ Node.endFail ∧ b.node ≠ Node.endSuccess := by
  unfold intentStep at h
  split at h
  · exact StepRes.noConfusion h
  · split at h
    · split at h <;>
        first
          | exact StepRes.noConfusion h
          | (injection h with h2; subst h2; simp)
    · exact StepRes.noConfusion h

theorem validatorStep_next (s : GraphState) (evs : List Ev) (b : Cfg)
    (h : validatorStep s evs = .next b) :
    b.st.errors = s.errors ∧ b.st.retry_count = s.retry_count ∧
      b.node ≠ Node.endFail ∧ b.node ≠ Node.endSuccess := by
  unfold validatorStep at h
  split at h
  · exact StepRes.noConfusion h
  · split at h
    · exact StepRes.noConfusion h
    · split at h
      · injection h with h2; subst h2; simp
      · split at h <;> (injection h with h2; subst h2; simp)

theorem fixStep_next (mr : Nat) (s : GraphState) (evs : List Ev) (b : Cfg)
    (h : fixStep mr s evs = .next b) :
    b.st.errors = s.errors ∧ s.retry_count < mr ∧
      b.st.retry_count = s.retry_count + 1 ∧ b.node = Node.validatorNode := by
  unfold fixStep at h
  split at h
  · exact StepRes.noConfusion h
  next hge =>
    split at h
    · exact StepRes.noConfusion h
    split at h
    · exact StepRes.noConfusion h
    split at h
    · split at h
      · exact StepRes.noConfusion h
      · exact StepRes.noConfusion h
      · exact StepRes.noConfusion h
      · exact StepRes.noConfusion h
      · split at h
        · exfalso
          omega
        · injection h with h2
          subst h2
          exact ⟨rfl, by omega, rfl, rfl⟩
    · exact StepRes.noConfusion h

theorem plannerStep_next (s : GraphState) (evs : List Ev) (b : Cfg)
    (h : plannerStep s evs = .next b) :
    b.st.errors = s.errors ∧ b.st.retry_count = s.retry_count ∧
      b.node ≠ Node.endFail ∧ b.node ≠ Node.endSuccess := by
  simp only [plannerStep] at h
  split at h <;> (injection h with h2; subst h2; simp)

theorem rendererStep_next (s : GraphState) (evs : List Ev) (b : Cfg)
    (h : rendererStep s evs = .next b) :
    b.st.errors = s.errors ∧ b.st.retry_count = s.retry_count ∧
      b.node ≠ Node.endFail ∧ b.node ≠ Node.endSuccess := by
  unfold rendererStep at h
  split at h
  · exact StepRes.noConfusion h
  · split at h
    · split at h
      · exact StepRes.noConfusion h
      · injection h with h2; subst h2; simp
    · exact StepRes.noConfusion h

theorem animStep_next (s : GraphState) (evs : List Ev) (b : Cfg)
    (h : animStep s evs = .next b) :
    b.st.errors = s.errors ∧ b.st.retry_count = s.retry_count ∧
      b.node ≠ Node.endFail ∧ b.node ≠ Node.endSuccess := by
  unfold animStep at h
  split at h
  · exact StepRes.noConfusion h
  split at h
  · exact StepRes.noConfusion h
  split at h
  · split at h
    · exact StepRes.noConfusion h
    · injection h with h2; subst h2; simp
  · exact StepRes.noConfusion h

theorem captureStep_next (s : GraphState) (evs : List Ev) (b : Cfg)
    (h : captureStep s evs = .next b) :
    b.st.errors = s.errors ∧ b.st.retry_count = s.retry_count ∧
      b.node ≠ Node.endFail ∧ b.node ≠ Node.endSuccess := by
  unfold captureStep at h
  split at h
  · exact StepRes.noConfusion h
  split at h
  · exact StepRes.noConfusion h
  split at h
  · exact StepRes.noConfusion h
  split at h
  · split at h
    · exact StepRes.noConfusion h
    · injection h with h2; subst h2; simp
  · exact StepRes.noConfusion h

theorem transcodeStep_next (s : GraphState) (evs : List Ev) (b : Cfg)
    (h : transcodeStep s evs = .next b) :
    b.st.errors = s.errors ∧ b.st.retry_count = s.retry_count ∧
      b.node = Node.endSuccess ∧ b.st.gif_path ≠ none := by
  unfold transcodeStep at h
  split at h
  · exact StepRes.noConfusion h
  · split at h
    · split at h
      · exact StepRes.noConfusion h
      · injection h with h2; subst h2; simp
    · exact StepRes.noConfusion h

theorem stepF_terminal_node (mr : Nat) (c : Cfg) (t : GraphState)
    (h : stepF mr c = .terminal t) :
    (c.node = Node.endSuccess ∨ c.node = Node.endFail) ∧ t = c.st := by
  obtain ⟨n, s, evs⟩ := c
  cases n
  case inputRouter =>
    exfalso
    simp only [stepF, routerStep] at h
    split at h <;> exact StepRes.noConfusion h
  case intentAgent =>
    exfalso
    simp only [stepF] at h
    unfold intentStep at h
    split at h
    · exact StepRes.noConfusion h
    · split at h
      · split at h <;> exact StepRes.noConfusion h
      · exact StepRes.noConfusion h
  case validatorNode =>
    exfalso
    simp only [stepF] at h
    unfold validatorStep at h
    split at h
    · exact StepRes.noConfusion h
    · split at h
      · exact StepRes.noConfusion h
      · split at h
        · exact StepRes.noConfusion h
        · split at h <;> exact StepRes.noConfusion h
  case fixMermaid =>
    exfalso
    simp only [stepF] at h
    unfold fixStep at h
    split at h
    · exact StepRes.noConfusion h
    split at h
    · exact StepRes.noConfusion h
    split at h
    · exact StepRes.noConfusion h
    split at h
    · split at h
      · exact StepRes.noConfusion h
      · exact StepRes.noConfusion h
      · exact StepRes.noConfusion h
      · exact StepRes.noConfusion h
      · split at h <;> exact StepRes.noConfusion h
    · exact StepRes.noConfusion h
  case animationPlanner =>
    exfalso
    simp only [stepF, plannerStep] at h
    split at h <;> exact StepRes.noConfusion h
  case rendererNode =>
    exfalso
    simp only [stepF] at h
    unfold rendererStep at h
    split at h
    · exact StepRes.noConfusion h
    · split at h
      · split at h <;> exact StepRes.noConfusion h
      · exact StepRes.noConfusion h
  case animApplicator =>
    exfalso
    simp only [stepF] at h
    unfold animStep at h
    split at h
    · exact StepRes.noConfusion h
    split at h
    · exact StepRes.noConfusion h
    split at h
    · split at h <;> exact StepRes.noConfusion h
    · exact StepRes.noConfusion h
  case captureNode =>
    exfalso
    simp only [stepF] at h
    unfold captureStep at h
    split at h
    · exact StepRes.noConfusion h
    split at h
    · exact StepRes.noConfusion h
    split at h
    · exact StepRes.noConfusion h
    split at h
    · split at h <;> exact StepRes.noConfusion h
    · exact StepRes.noConfusion h
  case transcodeNode =>
    exfalso
    simp only [stepF] at h
    unfold transcodeStep at h
    split at h
    · exact StepRes.noConfusion h
    · split at h
      · split at h <;> exact StepRes.noConfusion h
      · exact StepRes.noConfusion h
  case endSuccess =>
    simp only [stepF] at h
    injection h with h2
    exact ⟨Or.inl rfl, h2.symm⟩
  case endFail =>
    simp only [stepF] at h
    injection h with h2
    exact ⟨Or.inr rfl, h2.symm⟩

theorem inv_step (mr : Nat) (a b : Cfg) (ha : Inv mr a) (hs : StepsTo mr a b) :
    Inv mr b := by
  obtain ⟨he, hr, hnf, hgs⟩ := ha
  obtain ⟨n, s, evs⟩ := a
  unfold StepsTo at hs
  cases n
  case inputRouter =>
    obtain ⟨h1, h2, h3, h4⟩ := routerStep_next s evs b hs
    exact ⟨h1.trans he, h2 ▸ hr, h3, fun hc => absurd hc h4⟩
  case intentAgent =>
    obtain ⟨h1, h2, h3, h4⟩ := intentStep_next s evs b hs
    exact ⟨h1.trans he, h2 ▸ hr, h3, fun hc => absurd hc h4⟩
  case validatorNode =>
    obtain ⟨h1, h2, h3, h4⟩ := validatorStep_next s evs b hs
    exact ⟨h1.trans he, h2 ▸ hr, h3, fun hc => absurd hc h4⟩
  case fixMermaid =>
    obtain ⟨h1, h2, h3, h4⟩ := fixStep_next mr s evs b hs
    refine ⟨h1.trans he, by omega, ?_, ?_⟩
    · rw [h4]; simp
    · rw [h4]; simp
  case animationPlanner =>
    obtain ⟨h1, h2, h3, h4⟩ := plannerStep_next s evs b hs
    exact ⟨h1.trans he, h2 ▸ hr, h3, fun hc => absurd hc h4⟩
  case rendererNode =>
    obtain ⟨h1, h2, h3, h4⟩ := rendererStep_next s evs b hs
    exact ⟨h1.trans he, h2 ▸ hr, h3, fun hc => absurd hc h4⟩
  case animApplicator =>
    obtain ⟨h1, h2, h3, h4⟩ := animStep_next s evs b hs
    exact ⟨h1.trans he, h2 ▸ hr, h3, fun hc => absurd hc h4⟩
  case captureNode =>
    obtain ⟨h1, h2, h3, h4⟩ := captureStep_next s evs b hs
    exact ⟨h1.trans he, h2 ▸ hr, h3, fun hc => absurd hc h4⟩
  case transcodeNode =>
    obtain ⟨h1, h2, h3, h4⟩ := transcodeStep_next s evs b hs
    refine ⟨h1.trans he, h2 ▸ hr, ?_, fun _ => h4⟩
    rw [h3]; simp
  case endSuccess => exact absurd hs (by simp [stepF])
  case endFail => exact absurd hs (by simp [stepF])

theorem inv_init (mr : Nat) (inp ty : String) (evs : List Ev) :
    Inv mr (initCfg inp ty evs) := by
  refine ⟨rfl, by simp [initCfg, create_initial_state], by simp [initCfg], by simp [initCfg]⟩

theorem inv_reaches (mr : Nat) (inp ty : String) (evs : List Ev) (c : Cfg)
    (h : Reaches mr (initCfg inp ty evs) c) : Inv mr c := by
  induction h with
  | refl => exact inv_init mr inp ty evs
  | tail _ hstep ih => exact inv_step mr _ _ ih hstep

theorem mem_bracketErrors (isEr : Bool) (ls : List (List Char)) (i j : Nat) (l : List Char)
    (hj : ls.get? j = some l)
    (h1 : (pyStrip l).isEmpty = false) (h2 : isComment (pyStrip l) = false)
    (h3 : lineBracketBad isEr (pyStrip l) = true) :
    (⟨none, bracketMsg, i + j⟩ : VError) ∈ bracketErrors isEr i ls := by
  induction ls generalizing i j with
  | nil => simp at hj
  | cons a as ih =>
    cases j with
    | zero =>
      have hal : a = l := by simpa using hj
      subst hal
      simp only [bracketErrors]
      simp [h1, h2, h3]
    | succ j2 =>
      have hj2 : as.get? j2 = some l := by simpa using hj
      have ihm := ih (i + 1) j2 hj2
      have hadd : i + (j2 + 1) = (i + 1) + j2 := by omega
      simp only [bracketErrors]
      rw [hadd]
      by_cases hc : ((pyStrip a).isEmpty || isComment (pyStrip a)) = true
      · simp only [hc, if_true, ite_true]
        exact ihm
      · simp only [hc, if_false, ite_false]
        by_cases hb : lineBracketBad isEr (pyStrip a) = true
        · simp only [hb, if_true, ite_true]
          exact List.mem_cons_of_mem _ ihm
        · simp only [hb, if_false, ite_false]
          exact ihm

theorem bracketErrors_shape (isEr : Bool) (ls : List (List Char)) (i : Nat) (e : VError)
    (he : e ∈ bracketErrors isEr i ls) :
    e.etype = none ∧ e.message = bracketMsg ∧ i ≤ e.line := by
  induction ls generalizing i with
  | nil => simp [bracketErrors] at he
  | cons a as ih =>
    simp only [bracketErrors] at he
    split at he
    · obtain ⟨g1, g2, g3⟩ := ih (i + 1) he
      exact ⟨g1, g2, by omega⟩
    · split at he
      · rcases List.mem_cons.mp he with rfl | hmem
        · exact ⟨rfl, rfl, le_refl i⟩
        · obtain ⟨g1, g2, g3⟩ := ih (i + 1) hmem
          exact ⟨g1, g2, by omega⟩
      · obtain ⟨g1, g2, g3⟩ := ih (i + 1) he
        exact ⟨g1, g2, by omega⟩

theorem bracketErrors_sorted (isEr : Bool) (ls : List (List Char)) (i : Nat) :
    (bracketErrors isEr i ls).Pairwise (fun a b => a.line ≤ b.line) := by
  induction ls generalizing i with
  | nil => simp [bracketErrors]
  | cons a as ih =>
    simp only [bracketErrors]
    split
    · exact ih (i + 1)
    · split
      · refine List.Pairwise.cons ?_ (ih (i + 1))
        intro b hb
        have := (bracketErrors_shape isEr as (i + 1) b hb).2.2
        show i ≤ b.line
        omega
      · exact ih (i + 1)

theorem typeErrorsOf_shape (code : String) (e : VError) (he : e ∈ typeErrorsOf code) :
    e.etype = none ∧ e.message = typeMsg ∧ e.line = 1 := by
  unfold typeErrorsOf at he
  split at he
  · simp at he
  · rw [List.mem_singleton] at he
    subst he
    exact ⟨rfl, rfl, rfl⟩

theorem sepErrorsOf_shape (code : String) (e : VError) (he : e ∈ sepErrorsOf code) :
    e.etype = none ∧ e.message = sepMsg ∧ e.line = 1 := by
  unfold sepErrorsOf at he
  split at he
  · split at he
    · split at he
      · simp at he
      · rw [List.mem_singleton] at he
        subst he
        exact ⟨rfl, rfl, rfl⟩
    · simp at he
  · simp at he

theorem allErrorsOf_sorted (code : String) :
    (allErrorsOf code).Pairwise (fun a b => a.line ≤ b.line) := by
  unfold allErrorsOf
  rw [List.pairwise_append]
  refine ⟨?_, bracketErrors_sorted _ _ 1, ?_⟩
  · rw [List.pairwise_append]
    refine ⟨?_, ?_, ?_⟩
    · unfold typeErrorsOf
      split <;> simp
    · unfold sepErrorsOf
      split
      · split
        · split <;> simp
        · simp
      · simp
    · intro x hx y hy
      have gx := (typeErrorsOf_shape code x hx).2.2
      have gy := (sepErrorsOf_shape code y hy).2.2
      omega
  · intro x hx y hy
    rcases List.mem_append.mp hx with hb | hb
    · have gx := (typeErrorsOf_shape code x hb).2.2
      have gy := (bracketErrors_shape _ _ 1 y hy).2.2
      omega
    · have gx := (sepErrorsOf_shape code x hb).2.2
      have gy := (bracketErrors_shape _ _ 1 y hy).2.2
      omega

theorem getD_validate (code : String) (hemp : (pyStrip code.data).isEmpty = false) :
    (validate code).2.getD [] = allErrorsOf code := by
  unfold validate
  rw [if_neg (by simp [hemp])]
  split
  · next hE =>
    simp only [Option.getD_none]
    exact (List.isEmpty_iff.mp hE).symm
  · simp

theorem validate_empty_case (code : String) (hemp : (pyStrip code.data).isEmpty = true) :
    (validate code).2.getD [] = [⟨none, emptyMsg, 0⟩] := by
  unfold validate
  rw [if_pos hemp]
  rfl

theorem demo_reaches : Reaches 2 demoCfg demoEnd :=
  .trans (reaches_next 2 demoCfg (by decide))
    (.trans (reaches_next 2 (nextCfg 2 demoCfg) (by decide))
      (.trans (reaches_next 2 (nextCfg 2 (nextCfg 2 demoCfg)) (by decide))
        (.trans (reaches_next 2 (nextCfg 2 (nextCfg 2 (nextCfg 2 demoCfg))) (by decide))
          (.trans (reaches_next 2 (nextCfg 2 (nextCfg 2 (nextCfg 2 (nextCfg 2 demoCfg)))) (by decide))
            (.trans
              (reaches_next 2 (nextCfg 2 (nextCfg 2 (nextCfg 2 (nextCfg 2 (nextCfg 2 demoCfg))))) (by decide))
              (reaches_next 2
                (nextCfg 2 (nextCfg 2 (nextCfg 2 (nextCfg 2 (nextCfg 2 (nextCfg 2 demoCfg)))))) (by decide)))))))

/- ============================ claims ============================ -/

/-- C2: for every terminal record of one pipeline invocation (a state
delivered by a terminal handler of a run started from
create_initial_state), exactly one of the following holds: gif_path is
present, or the accumulated errors list is non-empty — never both and
never neither. -/
theorem terminal_record_exclusive (mr : Nat) (inp ty : String) (evs : List Ev)
    (c : Cfg) (t : GraphState)
    (hreach : Reaches mr (initCfg inp ty evs) c)
    (hterm : stepF mr c = .terminal t) :
    Xor' (t.gif_path ≠ none) (t.errors ≠ []) := by
  have hInv := inv_reaches mr inp ty evs c hreach
  obtain ⟨hn, ht⟩ := stepF_terminal_node mr c t hterm
  subst ht
  rcases hn with hn | hn
  · exact Or.inl ⟨hInv.2.2.2 hn, by simp [hInv.1]⟩
  · exact absurd hn hInv.2.2.1

/-- Witness for C2: the successful demo run terminates with gif_path set
and no errors, satisfying the exclusive-or. -/
theorem terminal_record_exclusive_witness :
    Xor' (demoEnd.st.gif_path ≠ none) (demoEnd.st.errors ≠ []) :=
  terminal_record_exclusive 2 demoSrc "mermaid" demoEvs demoEnd demoEnd.st
    demo_reaches (by decide)

/-- C10: from the initial record (retry_count = 0), in every reachable
configuration retry_count never exceeds the ceiling, the end_fail edge
target is never entered (the retry-controller condition
retry_count > ceiling is never true), and whenever the repair stage runs
with retry_count >= ceiling it aborts the run with the
RetryExhaustedError-derived message rather than routing to the failure
terminal. -/
theorem retry_ceiling_invariant (mr : Nat) (inp ty : String) (evs : List Ev) (c : Cfg)
    (hreach : Reaches mr (initCfg inp ty evs) c) :
    c.st.retry_count ≤ mr ∧ c.node ≠ Node.endFail ∧
      (c.node = Node.fixMermaid → mr ≤ c.st.retry_count →
        stepF mr c = .aborted (c.st.addErr (maxRetriesMsg mr))) := by
  have hInv := inv_reaches mr inp ty evs c hreach
  refine ⟨hInv.2.1, hInv.2.2.1, fun hn hge => ?_⟩
  have hstep : stepF mr c = fixStep mr c.st c.evs := by
    unfold stepF
    rw [hn]
  rw [hstep]
  exact fixStep_exhaust mr c.st c.evs hge

/-- Witness for C10 at the initial configuration itself. -/
theorem retry_ceiling_invariant_witness :
    (initCfg badSrc "text" []).st.retry_count ≤ 2 ∧
      (initCfg badSrc "text" []).node ≠ Node.endFail ∧
      ((initCfg badSrc "text" []).node = Node.fixMermaid →
        2 ≤ (initCfg badSrc "text" []).st.retry_count →
        stepF 2 (initCfg badSrc "text" []) =
          .aborted ((initCfg badSrc "text" []).st.addErr (maxRetriesMsg 2))) :=
  retry_ceiling_invariant 2 badSrc "text" [] (initCfg badSrc "text" [])
    Relation.ReflTransGen.refl

/-- C1 counterexample: with ceiling 2 and a source that never becomes
valid, the run performs 2 successful repairs and terminates via the
RetryExhaustedError message, but the attempt counter at termination is 2,
not 3 as the claim states. -/
theorem retry_bound_counterexample :
    (abortedState (run 2 20 c1Cfg)).map GraphState.retry_count = some 2 ∧
      (abortedState (run 2 20 c1Cfg)).map GraphState.errors = some [maxRetriesMsg 2] ∧
      (2 : Nat) ≠ 3 := by
  refine ⟨by decide, by decide, by decide⟩

/-- C1 (amended): with the ceiling 2 and a diagram source that never
becomes valid (every repair returns a well-formed payload that is still
invalid), the run performs exactly 2 repair attempts (retry_count ends at
2, incremented once per successful repair) and then terminates with the
RetryExhaustedError-derived message "Max retries (2) exceeded in fix
agent"; the value that triggered the >= ceiling check is 2, the ceiling
itself. -/
theorem retry_bound_two (src cA cB : String) (rest : List Ev) (fuel : Nat)
    (hfuel : 8 ≤ fuel)
    (hsrc : src.isEmpty = false) (hv0 : (validate src).1 = false)
    (hcA : cA.isEmpty = false) (hvA : (validate cA).1 = false)
    (hcB : cB.isEmpty = false) (hvB : (validate cB).1 = false) :
    run 2 fuel (initCfg src "mermaid" (Ev.llm (.ok cA none) :: Ev.llm (.ok cB none) :: rest)) =
        .aborted (retryDemoFinal src cA cB) ∧
      (retryDemoFinal src cA cB).retry_count = 2 ∧
      (retryDemoFinal src cA cB).errors = [maxRetriesMsg 2] := by
  obtain ⟨k, rfl⟩ : ∃ k, fuel = k + 8 := ⟨fuel - 8, by omega⟩
  obtain ⟨e0, es0, h0⟩ := validate_false_some src hv0
  obtain ⟨ea, esa, hA⟩ := validate_false_some cA hvA
  obtain ⟨eb, esb, hB⟩ := validate_false_some cB hvB
  refine ⟨?_, rfl, rfl⟩
  calc
    run 2 (k + 8) (initCfg src "mermaid" (Ev.llm (.ok cA none) :: Ev.llm (.ok cB none) :: rest))
      = run 2 (k + 7)
          ⟨.validatorNode,
           ⟨src, "mermaid", some src, some defaultManifest, none, false, false, none, none, [], [], 0⟩,
           Ev.llm (.ok cA none) :: Ev.llm (.ok cB none) :: rest⟩ :=
        run_next 2 (k + 7) _ _ rfl
    _ = run 2 (k + 6)
          ⟨.fixMermaid,
           ⟨src, "mermaid", some src, some defaultManifest, some (e0 :: es0), false, false, none, none, [], [], 0⟩,
           Ev.llm (.ok cA none) :: Ev.llm (.ok cB none) :: rest⟩ :=
        run_next 2 (k + 6) _ _
          (by exact validatorStep_invalid
                (⟨src, "mermaid", some src, some defaultManifest, none, false, false, none, none, [], [], 0⟩)
                (Ev.llm (.ok cA none) :: Ev.llm (.ok cB none) :: rest) src e0 es0 rfl hsrc h0)
    _ = run 2 (k + 5)
          ⟨.validatorNode,
           ⟨src, "mermaid", some cA, some defaultManifest, none, false, false, none, none, [], [], 1⟩,
           Ev.llm (.ok cB none) :: rest⟩ :=
        run_next 2 (k + 5) _ _
          (by exact fixStep_success 2
                (⟨src, "mermaid", some src, some defaultManifest, some (e0 :: es0), false, false, none, none, [], [], 0⟩)
                cA none (Ev.llm (.ok cB none) :: rest) (by show (0 : Nat) < 2; omega)
                (by show truthyStr (some src) = true; simp [truthyStr, hsrc]) rfl)
    _ = run 2 (k + 4)
          ⟨.fixMermaid,
           ⟨src, "mermaid", some cA, some defaultManifest, some (ea :: esa), false, false, none, none, [], [], 1⟩,
           Ev.llm (.ok cB none) :: rest⟩ :=
        run_next 2 (k + 4) _ _
          (by exact validatorStep_invalid
                (⟨src, "mermaid", some cA, some defaultManifest, none, false, false, none, none, [], [], 1⟩)
                (Ev.llm (.ok cB none) :: rest) cA ea esa rfl hcA hA)
    _ = run 2 (k + 3)
          ⟨.validatorNode,
           ⟨src, "mermaid", some cB, some defaultManifest, none, false, false, none, none, [], [], 2⟩,
           rest⟩ :=
        run_next 2 (k + 3) _ _
          (by exact fixStep_success 2
                (⟨src, "mermaid", some cA, some defaultManifest, some (ea :: esa), false, false, none, none, [], [], 1⟩)
                cB none rest (by show (1 : Nat) < 2; omega)
                (by show truthyStr (some cA) = true; simp [truthyStr, hcA]) rfl)
    _ = run 2 (k + 2)
          ⟨.fixMermaid,
           ⟨src, "mermaid", some cB, some defaultManifest, some (eb :: esb), false, false, none, none, [], [], 2⟩,
           rest⟩ :=
        run_next 2 (k + 2) _ _
          (by exact validatorStep_invalid
                (⟨src, "mermaid", some cB, some defaultManifest, none, false, false, none, none, [], [], 2⟩)
                rest cB eb esb rfl hcB hB)
    _ = .aborted
          (GraphState.addErr
            ⟨src, "mermaid", some cB, some defaultManifest, some (eb :: esb), false, false, none, none, [], [], 2⟩
            (maxRetriesMsg 2)) :=
        run_abortedE 2 (k + 1) _ _
          (by exact fixStep_exhaust 2
                (⟨src, "mermaid", some cB, some defaultManifest, some (eb :: esb), false, false, none, none, [], [], 2⟩)
                rest (by show (2 : Nat) ≤ 2; omega))
    _ = .aborted (retryDemoFinal src cA cB) := by
        unfold retryDemoFinal GraphState.addErr
        rw [hB]
        rfl

/-- Witness for the amended C1 at the concrete never-valid source "zzz". -/
theorem retry_bound_two_witness :
    run 2 20 (initCfg badSrc "mermaid" (Ev.llm (.ok badSrc none) :: Ev.llm (.ok badSrc none) :: [])) =
        .aborted (retryDemoFinal badSrc badSrc badSrc) ∧
      (retryDemoFinal badSrc badSrc badSrc).retry_count = 2 ∧
      (retryDemoFinal badSrc badSrc badSrc).errors = [maxRetriesMsg 2] :=
  retry_bound_two badSrc badSrc badSrc [] 20 (by decide) (by decide) (by decide)
    (by decide) (by decide) (by decide) (by decide)

/-- C3: the configuration object declares no max_retry_attempts field, so
the read config.max_retry_attempts performed by the retry controller
(graph.py line 87) and the repair stage (fixer.py line 95) raises
AttributeError instead of succeeding with the documented default 2. -/
theorem retry_ceiling_read_fails :
    readRetryCeiling (mkConfig (some "gsk_demo") none) =
        .error "AttributeError: \x27Config\x27 object has no attribute \x27max_retry_attempts\x27" ∧
      "max_retry_attempts" ∉ configFieldNames := by
  exact ⟨rfl, by decide⟩

/-- C4: when the repair stage succeeds (ceiling not reached, non-empty
diagram source, non-empty validation errors, well-formed external
response), it overwrites mermaid_code with the repaired source,
increments retry_count by exactly 1, and clears validation_errors;
control returns to the validator. -/
theorem fix_success_postconditions (mr : Nat) (s : GraphState) (code newCode : String)
    (mani : Option AnimManifest) (rest : List Ev) (e : VError) (es : List VError)
    (hr : s.retry_count < mr)
    (hm : s.mermaid_code = some code) (hne : code.isEmpty = false)
    (hv : s.validation_errors = some (e :: es)) :
    stepF mr ⟨.fixMermaid, s, Ev.llm (.ok newCode mani) :: rest⟩ =
      .next ⟨.validatorNode,
             { s with mermaid_code := some newCode, retry_count := s.retry_count + 1,
                      validation_errors := none }, rest⟩ := by
  have hm2 : truthyStr s.mermaid_code = true := by rw [hm]; simp [truthyStr, hne]
  have hv2 : truthyErrs s.validation_errors = true := by rw [hv]; rfl
  exact fixStep_success mr s newCode mani rest hr hm2 hv2

/-- Witness for C4 at a concrete record with one pending bracket error. -/
theorem fix_success_postconditions_witness :
    stepF 2 ⟨.fixMermaid, fixDemoState, [Ev.llm (.ok demoSrc none)]⟩ =
      .next ⟨.validatorNode,
             { fixDemoState with mermaid_code := some demoSrc,
                                 retry_count := fixDemoState.retry_count + 1,
                                 validation_errors := none }, []⟩ :=
  fix_success_postconditions 2 fixDemoState ("graph TD\nA[") demoSrc none []
    ⟨none, bracketMsg, 2⟩ [] (by decide) rfl (by decide) rfl

/-- C5 counterexample: for the source "\ngraph TD\nA[x" the only
bracket-mismatch error validate returns carries line number 2 (numbering
within the stripped source), while the offending line of the source
string as given is line 3. -/
theorem bracket_line_counterexample :
    (validate ex5).2 = some [⟨none, bracketMsg, 2⟩] ∧
      rawUnbalancedLines ex5 = [3] ∧ (2 : Nat) ≠ 3 := by
  exact ⟨by decide, by decide, by decide⟩

/-- C5 (amended): for every source and every line of the
whitespace-stripped source that is non-blank, non-comment and
bracket-unbalanced after the ER-cardinality exemption, validate returns a
bracket-mismatch error whose line number is that line's 1-based position
in the stripped source (which differs from the position in the raw source
when the source has leading blank lines or whitespace). -/
theorem bracket_error_line_numbers (code : String) (j : Nat) (l : List Char)
    (hj : (strippedLines code).get? j = some l)
    (h1 : (pyStrip l).isEmpty = false)
    (h2 : isComment (pyStrip l) = false)
    (h3 : lineBracketBad (containsSub erKey (firstLineOf code)) (pyStrip l) = true) :
    (⟨none, bracketMsg, j + 1⟩ : VError) ∈ (validate code).2.getD [] := by
  by_cases hemp : (pyStrip code.data).isEmpty = true
  · exfalso
    have hl : strippedLines code = [[]] := by
      unfold strippedLines
      rw [List.isEmpty_iff.mp hemp]
      rfl
    rw [hl] at hj
    cases j with
    | zero =>
      have hln : l = [] := by simpa using hj.symm
      subst hln
      simp [pyStrip] at h1
    | succ j2 => simp at hj
  · have hemp2 : (pyStrip code.data).isEmpty = false := by simpa using hemp
    rw [getD_validate code hemp2]
    unfold allErrorsOf
    have hmem := mem_bracketErrors (containsSub erKey (firstLineOf code))
      (strippedLines code) 1 j l hj h1 h2 h3
    have hco : (1 : Nat) + j = j + 1 := by omega
    rw [hco] at hmem
    exact List.mem_append.mpr (Or.inr hmem)

/-- Witness for the amended C5 at the concrete source ex5: the unbalanced
second stripped line yields the bracket error at line 2. -/
theorem bracket_error_line_numbers_witness :
    (⟨none, bracketMsg, 1 + 1⟩ : VError) ∈ (validate ex5).2.getD [] :=
  bracket_error_line_numbers ex5 1 ex5Line.data (by decide) (by decide) (by decide)
    (by decide)

/-- C6 counterexample: the single-line source "graph td a-->b" contains
exactly one connection operator and no separator, yet validate flags it
with the missing-separator error. -/
theorem separator_rule_counterexample :
    (validate ex6).2 = some [⟨none, sepMsg, 1⟩] ∧ connectionOpCount ex6 = 1 := by
  exact ⟨by decide, by decide⟩

/-- C6 (amended): for a single-line source (stripped source of exactly one
line), validate reports the missing-statement-separator error exactly when
the line contains at least one connection operator ("-->" or "---") and no
semicolon — one operator is already enough to be flagged. -/
theorem single_line_separator_rule (code : String)
    (hemp : (pyStrip code.data).isEmpty = false)
    (hsingle : (strippedLines code).length = 1) :
    ((⟨none, sepMsg, 1⟩ : VError) ∈ (validate code).2.getD []) ↔
      ((containsSub arrowPat (firstLineOf code) || containsSub dashPat (firstLineOf code)) = true ∧
        containsSub semiPat (firstLineOf code) = false) := by
  rw [getD_validate code hemp]
  unfold allErrorsOf
  constructor
  · intro hmem
    rcases List.mem_append.mp hmem with hts | hbr
    · rcases List.mem_append.mp hts with ht | hs
      · have hmsg := (typeErrorsOf_shape code _ ht).2.1
        exact absurd hmsg (by decide)
      · unfold sepErrorsOf at hs
        rw [if_pos hsingle] at hs
        split at hs
        · next hcond =>
          split at hs
          · simp at hs
          · next hsemi =>
            refine ⟨hcond, ?_⟩
            simpa using hsemi
        · simp at hs
    · have hmsg := (bracketErrors_shape _ _ 1 _ hbr).2.1
      exact absurd hmsg (by decide)
  · rintro ⟨hcond, hsemi⟩
    refine List.mem_append.mpr (Or.inl (List.mem_append.mpr (Or.inr ?_)))
    unfold sepErrorsOf
    rw [if_pos hsingle, if_pos hcond, if_neg (by simp [hsemi])]
    exact List.mem_singleton.mpr rfl

/-- Witness for the amended C6 at the concrete source ex6. -/
theorem single_line_separator_rule_witness :
    ((⟨none, sepMsg, 1⟩ : VError) ∈ (validate ex6).2.getD []) ↔
      ((containsSub arrowPat (firstLineOf ex6) || containsSub dashPat (firstLineOf ex6)) = true ∧
        containsSub semiPat (firstLineOf ex6) = false) :=
  single_line_separator_rule ex6 (by decide) (by decide)

/-- C7 counterexample: the error descriptor validate returns for the
source "A" carries no machine-usable kind label (the "type" key the error
formatter looks for is absent). -/
theorem kind_label_counterexample :
    ((validate ex7).2.getD []).map VError.etype = [none] ∧
      ((validate ex7).2.getD []).length = 1 := by
  exact ⟨by decide, by decide⟩

/-- C7 (amended): every error descriptor validate returns carries a
non-empty human-readable message and a best-effort line number that is 0
exactly for the empty/whitespace-only-source error and at least 1
otherwise, but carries no kind label (etype is absent; the fixer's
formatter substitutes "Unknown" for it). -/
theorem error_descriptor_shape (code : String) (e : VError)
    (he : e ∈ (validate code).2.getD []) :
    e.etype = none ∧ e.message ≠ "" ∧
      ((pyStrip code.data).isEmpty = true → e.line = 0) ∧
      ((pyStrip code.data).isEmpty = false → 1 ≤ e.line) := by
  by_cases hemp : (pyStrip code.data).isEmpty = true
  · rw [validate_empty_case code hemp] at he
    rw [List.mem_singleton] at he
    subst he
    refine ⟨rfl, by decide, fun _ => rfl, fun hf => ?_⟩
    rw [hf] at hemp
    exact Bool.noConfusion hemp
  · have hemp2 : (pyStrip code.data).isEmpty = false := by simpa using hemp
    rw [getD_validate code hemp2] at he
    unfold allErrorsOf at he
    rcases List.mem_append.mp he with hts | hbr
    · rcases List.mem_append.mp hts with ht | hs
      · obtain ⟨g1, g2, g3⟩ := typeErrorsOf_shape code e ht
        refine ⟨g1, by rw [g2]; decide, fun hf => ?_, fun _ => by omega⟩
        rw [hemp2] at hf
        exact Bool.noConfusion hf
      · obtain ⟨g1, g2, g3⟩ := sepErrorsOf_shape code e hs
        refine ⟨g1, by rw [g2]; decide, fun hf => ?_, fun _ => by omega⟩
        rw [hemp2] at hf
        exact Bool.noConfusion hf
    · obtain ⟨g1, g2, g3⟩ := bracketErrors_shape _ _ 1 e hbr
      refine ⟨g1, by rw [g2]; decide, fun hf => ?_, fun _ => g3⟩
      rw [hemp2] at hf
      exact Bool.noConfusion hf

/-- Witness for the amended C7 at the concrete source ex7 and its
diagram-type error descriptor. -/
theorem error_descriptor_shape_witness :
    (⟨none, typeMsg, 1⟩ : VError).etype = none ∧
      (⟨none, typeMsg, 1⟩ : VError).message ≠ "" ∧
      ((pyStrip ex7.data).isEmpty = true → (⟨none, typeMsg, 1⟩ : VError).line = 0) ∧
      ((pyStrip ex7.data).isEmpty = false → 1 ≤ (⟨none, typeMsg, 1⟩ : VError).line) :=
  error_descriptor_shape ex7 ⟨none, typeMsg, 1⟩ (by decide)

/-- C8: validate is deterministic (its embedding is a pure function: two
calls on the same source are identical) and its error sequence is in
stable order — line numbers are non-decreasing, matching source-line
order with detection order within a line. -/
theorem validate_deterministic_sorted (code : String) :
    validate code = validate code ∧
      ((validate code).2.getD []).Pairwise (fun a b => a.line ≤ b.line) := by
  refine ⟨rfl, ?_⟩
  by_cases hemp : (pyStrip code.data).isEmpty = true
  · rw [validate_empty_case code hemp]
    simp
  · have hemp2 : (pyStrip code.data).isEmpty = false := by simpa using hemp
    rw [getD_validate code hemp2]
    exact allErrorsOf_sorted code

/-- C9: invoking the animate stage on a record with diagram_rendered =
false always aborts with the AnimationError precondition message, leaves
animation_applied false, and its outcome does not depend on the pending
external events — the animation collaborator is never consulted. -/
theorem animate_requires_rendered (mr : Nat) (s : GraphState) (evs evs2 : List Ev)
    (h : s.diagram_rendered = false) :
    stepF mr ⟨.animApplicator, s, evs⟩ =
        .aborted { s.addErr animPreMsg with animation_applied := false } ∧
      stepF mr ⟨.animApplicator, s, evs⟩ = stepF mr ⟨.animApplicator, s, evs2⟩ := by
  have key : ∀ l : List Ev, stepF mr ⟨.animApplicator, s, l⟩ =
      .aborted { s.addErr animPreMsg with animation_applied := false } := by
    intro l
    show animStep s l = _
    unfold animStep
    rw [h]
    rfl
  exact ⟨key evs, (key evs).trans (key evs2).symm⟩

/-- Witness for C9 on the unrendered initial record. -/
theorem animate_requires_rendered_witness :
    stepF 2 ⟨.animApplicator, create_initial_state demoSrc "mermaid", [Ev.ext (.ok "anim")]⟩ =
        .aborted { (create_initial_state demoSrc "mermaid").addErr animPreMsg with
                   animation_applied := false } ∧
      stepF 2 ⟨.animApplicator, create_initial_state demoSrc "mermaid", [Ev.ext (.ok "anim")]⟩ =
        stepF 2 ⟨.animApplicator, create_initial_state demoSrc "mermaid", []⟩ :=
  animate_requires_rendered 2 (create_initial_state demoSrc "mermaid")
    [Ev.ext (.ok "anim")] [] rfl

end M2G
